import Mathlib

/-!
# Verification of the dma-buf mapping library

A shallow embedding of the `dma-buf` Rust crate (files `src/lib.rs` and
`src/ioctl.rs`) together with proofs that settle the specification claims.

Kernel interaction (`fstat`, `mmap`, `munmap`, the `DMA_BUF_IOCTL_SYNC`
ioctl) is modelled by an environment `Env` of oracle results, and each
embedded operation returns the list of externally visible events it emits
together with its `Result` value, mirroring the Rust control flow
statement by statement.  Machine integers are modelled as `Nat`/`Int`
(`st_size` is an `i64`, hence `Int`; `usize` values are `Nat` guarded by
an explicit width check where the source performs `usize::try_from`).
-/

namespace DmaBuf

/-- Externally visible events of the library, in program order:
the `fstat` size query, the `mmap` call (carrying the length the code
passes to it), a `DMA_BUF_IOCTL_SYNC` ioctl carrying its 64-bit flags
word, the `munmap` call, a caller read/write of the mapped bytes, and a
`warn!` log message on the side channel. -/
inductive Event where
  | fstatCall : Event
  | mmapCall : Nat → Event
  | sync : Nat → Event
  | munmapCall : Event
  | byteAccess : Event
  | warn : Event
deriving DecidableEq, Repr

/-- Source: `enum MapError` from `src/lib.rs`.  `FdAccess` and `MappingFailed`
carry `reason: String, source: std::io::Error`, both derived from the
underlying OS errno, which we model as the errno value itself;
`IntegerConversionFailed` is built by the `#[from] TryFromIntError`
conversion and carries no data we need.

`src/ioctl.rs` wraps a rejected `DMA_BUF_IOCTL_SYNC` ioctl as
`BufferError::FdAccess { reason, source }`; the crate defines no
`BufferError` type (only `MapError`), and the constructors `new` in
`src/lib.rs` propagate that failure with `?` into a `MapError`, so the
ioctl failure surfaces as the `FdAccess` variant, which is how we embed
it. -/
inductive MapError where
  | FdAccess : Nat → MapError
  | MappingFailed : Nat → MapError
  | IntegerConversionFailed : MapError
deriving DecidableEq, Repr

/-- Constructor tag of a `MapError`, used to compare which typed variant
two errors surface as. -/
def MapError.variantIdx : MapError → Nat
  | .FdAccess _ => 0
  | .MappingFailed _ => 1
  | .IntegerConversionFailed => 2

/-! ## `src/ioctl.rs`: sync flag words -/

/-- Source: `const DMA_BUF_SYNC_READ: u64 = 1 << 0;` -/
def DMA_BUF_SYNC_READ : Nat := 1 <<< 0

/-- Source: `const DMA_BUF_SYNC_WRITE: u64 = 1 << 1;` -/
def DMA_BUF_SYNC_WRITE : Nat := 1 <<< 1

/-- Source: `const DMA_BUF_SYNC_START: u64 = 0 << 2;` -/
def DMA_BUF_SYNC_START : Nat := 0 <<< 2

/-- Source: `const DMA_BUF_SYNC_END: u64 = 1 << 2;` -/
def DMA_BUF_SYNC_END : Nat := 1 <<< 2

/-- Flags word sent by `dma_buf_begin_cpu_read_access`. -/
def dma_buf_begin_cpu_read_access_flags : Nat :=
  DMA_BUF_SYNC_START ||| DMA_BUF_SYNC_READ

/-- Flags word sent by `dma_buf_begin_cpu_readwrite_access`. -/
def dma_buf_begin_cpu_readwrite_access_flags : Nat :=
  DMA_BUF_SYNC_START ||| DMA_BUF_SYNC_WRITE ||| DMA_BUF_SYNC_READ

/-- Flags word sent by `dma_buf_begin_cpu_write_access`. -/
def dma_buf_begin_cpu_write_access_flags : Nat :=
  DMA_BUF_SYNC_START ||| DMA_BUF_SYNC_WRITE

/-- Flags word sent by `dma_buf_end_cpu_read_access`. -/
def dma_buf_end_cpu_read_access_flags : Nat :=
  DMA_BUF_SYNC_END ||| DMA_BUF_SYNC_READ

/-- Flags word sent by `dma_buf_end_cpu_readwrite_access`. -/
def dma_buf_end_cpu_readwrite_access_flags : Nat :=
  DMA_BUF_SYNC_END ||| DMA_BUF_SYNC_WRITE ||| DMA_BUF_SYNC_READ

/-- Flags word sent by `dma_buf_end_cpu_write_access`. -/
def dma_buf_end_cpu_write_access_flags : Nat :=
  DMA_BUF_SYNC_END ||| DMA_BUF_SYNC_WRITE

/-! ## `src/lib.rs`: the mapping lifecycle -/

/-- Oracle results of the kernel calls the library performs, plus the
host parameters.  `st_size` is the `i64` field of the `fstat` result (or
the errno on failure); `mmapResult` is the address returned by `mmap`
(or the errno); `syncResult` gives, per flags word, the outcome of the
`DMA_BUF_IOCTL_SYNC` ioctl; `pageSize` is `rustix::param::page_size()`;
`usizeBits` is the bit width of the host `usize`. -/
structure Env where
  st_size : Except Nat Int
  mmapResult : Except Nat Nat
  syncResult : Nat → Except Nat Unit
  pageSize : Nat
  usizeBits : Nat

/-- Source: `usize::try_from(n)` for `n : i64`, followed by the `?` operator:
succeeds iff `n` is representable in `bits` bits as an unsigned value,
and otherwise produces `MapError::IntegerConversionFailed` through the
`#[from] TryFromIntError` conversion. -/
def usize_try_from (bits : Nat) (n : Int) : Except MapError Nat :=
  if 0 ≤ n ∧ n < (2 : Int) ^ bits then .ok n.toNat
  else .error .IntegerConversionFailed

/-- Source: `usize::next_multiple_of` from the Rust standard library, as its
source is written: `match self % rhs { 0 => self, r => self + (rhs - r) }`. -/
def next_multiple_of (self rhs : Nat) : Nat :=
  match self % rhs with
  | 0 => self
  | r => self + (rhs - r)

/-- Source: `DmaBuf::memory_map` from `src/lib.rs`: `fstat` the descriptor
(failure becomes `MapError::FdAccess`), convert `st_size` to `usize`
(`?` on failure), round up to the page size, `mmap` that length (failure
becomes `MapError::MappingFailed`), and return `(len, mapping_ptr)`.
The first component collects the events the call emits, in order. -/
def memory_map (env : Env) : List Event × Except MapError (Nat × Nat) :=
  match env.st_size with
  | .error e => ([Event.fstatCall], .error (.FdAccess e))
  | .ok sz =>
    match usize_try_from env.usizeBits sz with
    | .error err => ([Event.fstatCall], .error err)
    | .ok size =>
      let len := next_multiple_of size env.pageSize
      match env.mmapResult with
      | .error e => ([Event.fstatCall, Event.mmapCall len], .error (.MappingFailed e))
      | .ok addr => ([Event.fstatCall, Event.mmapCall len], .ok (len, addr))

/-- Source: `struct MappedDmaBuf` from `src/lib.rs`: the borrowed `buf` handle is
not needed by any claim, so the embedding keeps the mapped length `len`
and the mapping address `mmap`. -/
structure MappedDmaBuf where
  len : Nat
  mmap : Nat
deriving DecidableEq, Repr

/-- Source: `MappedDmaBufRo::new`: issue the begin-read sync ioctl; on failure
propagate it with `?` (the `FdAccess` variant, see `MapError`), on
success wrap the fields into the mapping struct. -/
def MappedDmaBufRo.new (env : Env) (len mapping_ptr : Nat) :
    List Event × Except MapError MappedDmaBuf :=
  match env.syncResult dma_buf_begin_cpu_read_access_flags with
  | .error e => ([Event.sync dma_buf_begin_cpu_read_access_flags], .error (.FdAccess e))
  | .ok _ => ([Event.sync dma_buf_begin_cpu_read_access_flags], .ok ⟨len, mapping_ptr⟩)

/-- Source: `MappedDmaBufRw::new`: same as `MappedDmaBufRo::new` with the
begin-readwrite flags. -/
def MappedDmaBufRw.new (env : Env) (len mapping_ptr : Nat) :
    List Event × Except MapError MappedDmaBuf :=
  match env.syncResult dma_buf_begin_cpu_readwrite_access_flags with
  | .error e => ([Event.sync dma_buf_begin_cpu_readwrite_access_flags], .error (.FdAccess e))
  | .ok _ => ([Event.sync dma_buf_begin_cpu_readwrite_access_flags], .ok ⟨len, mapping_ptr⟩)

/-- Source: `MappedDmaBufWo::new`: same as `MappedDmaBufRo::new` with the
begin-write flags. -/
def MappedDmaBufWo.new (env : Env) (len mapping_ptr : Nat) :
    List Event × Except MapError MappedDmaBuf :=
  match env.syncResult dma_buf_begin_cpu_write_access_flags with
  | .error e => ([Event.sync dma_buf_begin_cpu_write_access_flags], .error (.FdAccess e))
  | .ok _ => ([Event.sync dma_buf_begin_cpu_write_access_flags], .ok ⟨len, mapping_ptr⟩)

/-- Source: `DmaBuf::memory_map_ro`: `let (len, mapping_ptr) = self.memory_map()?;
MappedDmaBufRo::new(self, len, mapping_ptr)`.  On the error return of
`new`, the raw `len`/`mapping_ptr` values are discarded: a raw pointer
has no drop glue in Rust, so no `munmap` event is emitted on that path. -/
def memory_map_ro (env : Env) : List Event × Except MapError MappedDmaBuf :=
  match memory_map env with
  | (evs, .error e) => (evs, .error e)
  | (evs, .ok (len, mapping_ptr)) =>
    let r := MappedDmaBufRo.new env len mapping_ptr
    (evs ++ r.1, r.2)

/-- Source: `DmaBuf::memory_map_rw`, analogous to `memory_map_ro`. -/
def memory_map_rw (env : Env) : List Event × Except MapError MappedDmaBuf :=
  match memory_map env with
  | (evs, .error e) => (evs, .error e)
  | (evs, .ok (len, mapping_ptr)) =>
    let r := MappedDmaBufRw.new env len mapping_ptr
    (evs ++ r.1, r.2)

/-- Source: `DmaBuf::memory_map_wo`, analogous to `memory_map_ro`. -/
def memory_map_wo (env : Env) : List Event × Except MapError MappedDmaBuf :=
  match memory_map env with
  | (evs, .error e) => (evs, .error e)
  | (evs, .ok (len, mapping_ptr)) =>
    let r := MappedDmaBufWo.new env len mapping_ptr
    (evs ++ r.1, r.2)

/-- The three public access modes: `MappedDmaBufRo`, `MappedDmaBufRw`,
`MappedDmaBufWo`. -/
inductive Mode where
  | ro : Mode
  | rw : Mode
  | wo : Mode
deriving DecidableEq, Repr

/-- The begin flags word each mode's constructor sends (from the `new`
bodies in `src/lib.rs`). -/
def beginFlags : Mode → Nat
  | .ro => dma_buf_begin_cpu_read_access_flags
  | .rw => dma_buf_begin_cpu_readwrite_access_flags
  | .wo => dma_buf_begin_cpu_write_access_flags

/-- The end flags word each mode's `Drop` impl sends (from the `drop`
bodies in `src/lib.rs`). -/
def endFlags : Mode → Nat
  | .ro => dma_buf_end_cpu_read_access_flags
  | .rw => dma_buf_end_cpu_readwrite_access_flags
  | .wo => dma_buf_end_cpu_write_access_flags

/-- The mode-indexed map entry point: `memory_map_ro` / `memory_map_rw`
/ `memory_map_wo`. -/
def memory_map_mode : Mode → Env → List Event × Except MapError MappedDmaBuf
  | .ro => memory_map_ro
  | .rw => memory_map_rw
  | .wo => memory_map_wo

/-! ## Release and lifetime traces

When a `MappedDmaBufRo`/`Rw`/`Wo` value is dropped, Rust first runs its
own `Drop::drop` body (the end sync ioctl, with a `warn!` if it fails)
and then drops its field of type `MappedDmaBuf`, whose `Drop` impl calls
`munmap` (with a `warn!` if that fails).  `drop` returns `()` in both
impls: no error is returned and no panic is raised on either failure. -/

/-- Events emitted while a mapping of mode `m` is dropped, given whether
the end sync ioctl fails and whether `munmap` fails. -/
def dropTrace (m : Mode) (endFails unmapFails : Bool) : List Event :=
  [Event.sync (endFlags m)] ++ (if endFails then [Event.warn] else []) ++
    [Event.munmapCall] ++ (if unmapFails then [Event.warn] else [])

/-- Events emitted by a successful `new` of mode `m` (see the `new`
embeddings above: exactly the begin sync ioctl). -/
def newEvents (m : Mode) : List Event := [Event.sync (beginFlags m)]

/-- Events emitted by `k` caller accesses through `as_slice` /
`as_slice_mut`: the accessors return raw views and perform no kernel
call, so each access is a plain byte access with no sync event. -/
def accessEvents (k : Nat) : List Event := List.replicate k Event.byteAccess

/-- The full event trace of one mapping's lifetime: Rust's ownership
discipline sequences every use of the mapping strictly between its
construction and its drop, so the lifetime trace is the construction
events, then the `k` caller accesses, then the drop events. -/
def lifetimeTrace (m : Mode) (k : Nat) (endFails unmapFails : Bool) : List Event :=
  newEvents m ++ accessEvents k ++ dropTrace m endFails unmapFails

/-! ## Byte views -/

/-- Source: `MappedDmaBuf::as_slice`:
`slice::from_raw_parts(self.mmap, self.len)` — the byte view of the
`len` bytes starting at address `mmap`, over a memory `mem`. -/
def MappedDmaBuf.as_slice (mem : Nat → Nat) (m : MappedDmaBuf) : List Nat :=
  (List.range m.len).map fun i => mem (m.mmap + i)

/-- Source: `MappedDmaBuf::as_slice_mut`:
`slice::from_raw_parts_mut(self.mmap, self.len)` — the same view,
handed out mutably. -/
def MappedDmaBuf.as_slice_mut (mem : Nat → Nat) (m : MappedDmaBuf) : List Nat :=
  (List.range m.len).map fun i => mem (m.mmap + i)

/-- The two byte-view accessors of the public API. -/
inductive Accessor where
  | read : Accessor
  | write : Accessor
deriving DecidableEq, Repr

/-- Which public accessors each mode's wrapper offers, read off the
`impl` blocks of `src/lib.rs`: `MappedDmaBufRo` has `as_slice` only,
`MappedDmaBufRw` has `as_slice` and `as_slice_mut`, `MappedDmaBufWo`
has `as_slice_mut` only. -/
def exposes : Mode → Accessor → Bool
  | .ro, .read => true
  | .ro, .write => false
  | .rw, .read => true
  | .rw, .write => true
  | .wo, .read => false
  | .wo, .write => true

/-! ## Borrow discipline -/

/-- The kind of borrow of the `DmaBuf` handle a mapping holds. -/
inductive BorrowKind where
  | shared : BorrowKind
  | exclusive : BorrowKind
deriving DecidableEq, Repr

/-- Read off the signatures in `src/lib.rs`: `memory_map_ro(&self)`
takes a shared borrow; `memory_map_rw(&mut self)` and
`memory_map_wo(&mut self)` take exclusive borrows, held for the
returned mapping's lifetime. -/
def mappingBorrow : Mode → BorrowKind
  | .ro => .shared
  | .rw => .exclusive
  | .wo => .exclusive

/-- Rust's compile-time borrow rule for one `DmaBuf` handle: a new
shared borrow is admitted iff every live borrow is shared, and a new
exclusive borrow is admitted iff no borrow is live.  This judgment is a
pure function of the program text (the borrow checker); no runtime lock
or flag exists anywhere in `src/`. -/
def canConstruct (live : List BorrowKind) : BorrowKind → Bool
  | .shared => live.all (· == BorrowKind.shared)
  | .exclusive => live.isEmpty

/-! ## Scoped access with caller-supplied logic -/

/-- Error type of the scoped-access operation: the caller-logic failure
wrapper, distinct by constructor from the notifier failure wrapper. -/
inductive AccessError (ε : Type) where
  | ClosureError : ε → AccessError ε
  | FdAccessError : Nat → AccessError ε
deriving DecidableEq, Repr

/-- Events of one scoped access. -/
inductive AccEvent where
  | beginSyncAttempt : AccEvent
  | closureRun : AccEvent
  | endSyncAttempt : AccEvent
  | warnLogged : AccEvent
deriving DecidableEq, Repr

/-- Modelled from the spec: the closure-based scoped-access operation
(`with_read_access` / `with_write_access`, spec §4.3) is part of this
system's history but absent from `src/`, where the accessors return
plain views.  Per the spec's words: the begin notification is issued and
its failure propagated; the caller logic then runs and the end
notification is attempted even if the caller logic failed; a caller
failure is wrapped as `ClosureError` and takes precedence over an end
failure, which is then reported only on the warn side channel; an end
failure alone surfaces as the notifier wrapper `FdAccessError`. -/
def with_access {ε ρ : Type} (beginResult : Except Nat Unit)
    (closureResult : Except ε ρ) (endResult : Except Nat Unit) :
    List AccEvent × Except (AccessError ε) ρ :=
  match beginResult with
  | .error e => ([AccEvent.beginSyncAttempt], .error (.FdAccessError e))
  | .ok _ =>
    match closureResult, endResult with
    | .error ce, .error _ =>
      ([AccEvent.beginSyncAttempt, AccEvent.closureRun, AccEvent.endSyncAttempt,
        AccEvent.warnLogged], .error (.ClosureError ce))
    | .error ce, .ok _ =>
      ([AccEvent.beginSyncAttempt, AccEvent.closureRun, AccEvent.endSyncAttempt],
        .error (.ClosureError ce))
    | .ok _, .error e =>
      ([AccEvent.beginSyncAttempt, AccEvent.closureRun, AccEvent.endSyncAttempt],
        .error (.FdAccessError e))
    | .ok r, .ok _ =>
      ([AccEvent.beginSyncAttempt, AccEvent.closureRun, AccEvent.endSyncAttempt],
        .ok r)

/-! ## Concrete environments used as witnesses and counterexamples -/

/-- Environment: 64-bit host, page size 4096, all kernel calls succeed, but `fstat`
reports `st_size = -1`, which `usize::try_from` rejects. -/
def envNegSize : Env where
  st_size := .ok (-1)
  mmapResult := .ok 65536
  syncResult := fun _ => .ok ()
  pageSize := 4096
  usizeBits := 64

/-- Environment: 64-bit host, page size 4096; `fstat` itself fails with errno 9. -/
def envFstatFail : Env where
  st_size := .error 9
  mmapResult := .ok 65536
  syncResult := fun _ => .ok ()
  pageSize := 4096
  usizeBits := 64

/-- Environment: 64-bit host, page size 4096, `st_size = 10`; `mmap` fails with
errno 12. -/
def envMmapFail : Env where
  st_size := .ok 10
  mmapResult := .error 12
  syncResult := fun _ => .ok ()
  pageSize := 4096
  usizeBits := 64

/-- Environment: 64-bit host, page size 4096, `st_size = 10`, `mmap` succeeds at
address 65536; every sync ioctl fails with errno 22. -/
def envSyncFail : Env where
  st_size := .ok 10
  mmapResult := .ok 65536
  syncResult := fun _ => .error 22
  pageSize := 4096
  usizeBits := 64

/-- Environment: 64-bit host, page size 4096, `st_size = 10`; every kernel call
succeeds, `mmap` returning address 65536. -/
def envOk10 : Env where
  st_size := .ok 10
  mmapResult := .ok 65536
  syncResult := fun _ => .ok ()
  pageSize := 4096
  usizeBits := 64

end DmaBuf

open DmaBuf

/-- Source: `next_multiple_of n p` (for `p > 0`) is a multiple of `p`, is at
least `n`, and is below every multiple of `p` that is at least `n`:
it is the least multiple of `p` greater than or equal to `n`. -/
theorem next_multiple_of_is_least (n p : Nat) (hp : 0 < p) :
    p ∣ next_multiple_of n p ∧ n ≤ next_multiple_of n p ∧
      ∀ c, p ∣ c → n ≤ c → next_multiple_of n p ≤ c := by
  rcases hr : n % p with _ | r
  · have heq : next_multiple_of n p = n := by
      unfold next_multiple_of
      rw [hr]
    rw [heq]
    exact ⟨Nat.dvd_of_mod_eq_zero hr, Nat.le_refl n, fun c _ hc => hc⟩
  · have heq : next_multiple_of n p = n + (p - (r + 1)) := by
      unfold next_multiple_of
      rw [hr]
      rfl
    rw [heq]
    have hlt : r + 1 < p := hr ▸ Nat.mod_lt n hp
    have hq : p * (n / p) + (r + 1) = n := by
      rw [← hr]
      exact Nat.div_add_mod n p
    have hsum : n + (p - (r + 1)) = p * (n / p) + p := by
      have h1 : (r + 1) + (p - (r + 1)) = p :=
        Nat.add_sub_cancel' (Nat.le_of_lt hlt)
      calc n + (p - (r + 1)) = (p * (n / p) + (r + 1)) + (p - (r + 1)) := by
            rw [hq]
        _ = p * (n / p) + ((r + 1) + (p - (r + 1))) := by
            rw [Nat.add_assoc]
        _ = p * (n / p) + p := by rw [h1]
    refine ⟨⟨n / p + 1, ?_⟩, Nat.le_add_right n _, ?_⟩
    · rw [Nat.mul_succ]
      exact hsum
    · intro c hdvd hc
      obtain ⟨mq, rfl⟩ := hdvd
      have h0 : p * (n / p) < p * (n / p) + (r + 1) :=
        Nat.lt_add_of_pos_right (Nat.succ_pos r)
      rw [hq] at h0
      have h2 : p * (n / p) < p * mq := Nat.lt_of_lt_of_le h0 hc
      have hqm : n / p + 1 ≤ mq := Nat.lt_of_mul_lt_mul_left h2
      calc n + (p - (r + 1)) = p * (n / p + 1) := by
            rw [Nat.mul_succ]; exact hsum
        _ ≤ p * mq := Nat.mul_le_mul_left p hqm

/-- Claim C5. For each of the six (direction, phase) combinations the
64-bit flags word sent to the kernel sets exactly bit0 for read, bit1
for write (ReadWrite sets both), and bit2 = 1 for End, 0 for Begin: the
six words are begin-read = 1, begin-write = 2, begin-readwrite = 3,
end-read = 5, end-write = 6, end-readwrite = 7, and every word is < 8,
so no bit above bit2 is ever set. -/
theorem spec_C5_sync_flag_bits :
    dma_buf_begin_cpu_read_access_flags = 1 ∧
    dma_buf_begin_cpu_write_access_flags = 2 ∧
    dma_buf_begin_cpu_readwrite_access_flags = 3 ∧
    dma_buf_end_cpu_read_access_flags = 5 ∧
    dma_buf_end_cpu_write_access_flags = 6 ∧
    dma_buf_end_cpu_readwrite_access_flags = 7 ∧
    (dma_buf_begin_cpu_read_access_flags.testBit 0 = true ∧
      dma_buf_begin_cpu_read_access_flags.testBit 1 = false ∧
      dma_buf_begin_cpu_read_access_flags.testBit 2 = false) ∧
    (dma_buf_begin_cpu_write_access_flags.testBit 0 = false ∧
      dma_buf_begin_cpu_write_access_flags.testBit 1 = true ∧
      dma_buf_begin_cpu_write_access_flags.testBit 2 = false) ∧
    (dma_buf_begin_cpu_readwrite_access_flags.testBit 0 = true ∧
      dma_buf_begin_cpu_readwrite_access_flags.testBit 1 = true ∧
      dma_buf_begin_cpu_readwrite_access_flags.testBit 2 = false) ∧
    (dma_buf_end_cpu_read_access_flags.testBit 0 = true ∧
      dma_buf_end_cpu_read_access_flags.testBit 1 = false ∧
      dma_buf_end_cpu_read_access_flags.testBit 2 = true) ∧
    (dma_buf_end_cpu_write_access_flags.testBit 0 = false ∧
      dma_buf_end_cpu_write_access_flags.testBit 1 = true ∧
      dma_buf_end_cpu_write_access_flags.testBit 2 = true) ∧
    (dma_buf_end_cpu_readwrite_access_flags.testBit 0 = true ∧
      dma_buf_end_cpu_readwrite_access_flags.testBit 1 = true ∧
      dma_buf_end_cpu_readwrite_access_flags.testBit 2 = true) ∧
    dma_buf_begin_cpu_read_access_flags < 8 ∧
    dma_buf_begin_cpu_write_access_flags < 8 ∧
    dma_buf_begin_cpu_readwrite_access_flags < 8 ∧
    dma_buf_end_cpu_read_access_flags < 8 ∧
    dma_buf_end_cpu_write_access_flags < 8 ∧
    dma_buf_end_cpu_readwrite_access_flags < 8 := by
  decide

/-- On a kernel-reported size representable as a `usize`,
`usize::try_from` succeeds with the same value. -/
theorem usize_try_from_natCast (bits n : Nat) (h : (n : Int) < (2 : Int) ^ bits) :
    usize_try_from bits (n : Int) = Except.ok n := by
  unfold usize_try_from
  rw [if_pos ⟨Int.natCast_nonneg n, h⟩]
  simp

/-- Claim C4. For every valid (representable) kernel-reported buffer size
`n`, the mapping length `memory_map` computes and returns is
`next_multiple_of n pageSize`, which is the smallest multiple of the
page size that is ≥ `n`; in particular a logical size of 10 bytes with
page size 4096 yields a mapped length of 4096. -/
theorem spec_C4_page_rounding (env : Env) (n a : Nat)
    (hst : env.st_size = Except.ok (n : Int))
    (hrep : (n : Int) < (2 : Int) ^ env.usizeBits)
    (hp : 0 < env.pageSize)
    (hmm : env.mmapResult = Except.ok a) :
    (memory_map env).2 = Except.ok (next_multiple_of n env.pageSize, a) ∧
    env.pageSize ∣ next_multiple_of n env.pageSize ∧
    n ≤ next_multiple_of n env.pageSize ∧
    (∀ c, env.pageSize ∣ c → n ≤ c → next_multiple_of n env.pageSize ≤ c) ∧
    next_multiple_of 10 4096 = 4096 := by
  obtain ⟨h1, h2, h3⟩ := next_multiple_of_is_least n env.pageSize hp
  refine ⟨?_, h1, h2, h3, by decide⟩
  simp only [memory_map, hst, usize_try_from_natCast env.usizeBits n hrep, hmm]

/-- Closed instance of `spec_C4_page_rounding`: in `envOk10`
(`st_size = 10`, page size 4096) the map succeeds and the returned
length is the least page multiple ≥ 10, namely 4096. -/
theorem spec_C4_witness :
    (memory_map envOk10).2 = Except.ok (next_multiple_of 10 4096, 65536) ∧
    4096 ∣ next_multiple_of 10 4096 ∧
    10 ≤ next_multiple_of 10 4096 ∧
    (∀ c, 4096 ∣ c → 10 ≤ c → next_multiple_of 10 4096 ≤ c) ∧
    next_multiple_of 10 4096 = 4096 :=
  spec_C4_page_rounding envOk10 10 65536 rfl (by decide) (by decide) rfl

/-- Claim C2, amended: If the kernel-reported buffer length cannot be
represented in the host's native size type, `memory_map` returns the
typed error `MapError::IntegerConversionFailed` (via the
`#[from] TryFromIntError` conversion and the `?` operator); it neither
panics nor silently truncates. -/
theorem spec_C2_integer_conversion_error (env : Env) (n : Int)
    (hst : env.st_size = Except.ok n)
    (hbad : ¬ (0 ≤ n ∧ n < (2 : Int) ^ env.usizeBits)) :
    (memory_map env).2 = Except.error MapError.IntegerConversionFailed := by
  have htry : usize_try_from env.usizeBits n =
      Except.error MapError.IntegerConversionFailed := by
    unfold usize_try_from
    rw [if_neg hbad]
  simp only [memory_map, hst, htry]

/-- Claim C2 counterexample. The claim says the map operation aborts
(panics) with no `MapError` value produced when `st_size` does not fit a
`usize`.  In `envNegSize` the kernel reports `st_size = -1`, which does
not fit, and `memory_map` returns the `MapError::IntegerConversionFailed`
value — a produced, returned error, not an abort. -/
theorem spec_C2_counterexample :
    (memory_map envNegSize).2 = Except.error MapError.IntegerConversionFailed := by
  rfl

/-- Closed instance of `spec_C2_integer_conversion_error` at
`envNegSize`. -/
theorem spec_C2_witness :
    (memory_map envNegSize).2 = Except.error MapError.IntegerConversionFailed ∧
    envNegSize.st_size = Except.ok (-1) :=
  ⟨spec_C2_integer_conversion_error envNegSize (-1) rfl (by decide), rfl⟩

/-- Claim C7, amended: `memory_map` fails with the `FdAccess` variant
when the kernel size query (`fstat`) errors — the crate has no
`SizeQueryFailed` variant — with `MappingFailed` when `mmap` is
rejected, and with `FdAccess` when the begin sync ioctl is rejected;
the mapping failure is a distinct variant, but the size-query failure
and the begin-notification failure surface as the same `FdAccess`
variant. -/
theorem spec_C7_error_variants :
    (∀ (env : Env) (e : Nat), env.st_size = Except.error e →
        (memory_map env).2 = Except.error (MapError.FdAccess e)) ∧
    (∀ (env : Env) (n e : Nat), env.st_size = Except.ok (n : Int) →
        (n : Int) < (2 : Int) ^ env.usizeBits →
        env.mmapResult = Except.error e →
        (memory_map env).2 = Except.error (MapError.MappingFailed e)) ∧
    (∀ (env : Env) (n a e : Nat), env.st_size = Except.ok (n : Int) →
        (n : Int) < (2 : Int) ^ env.usizeBits →
        env.mmapResult = Except.ok a →
        env.syncResult dma_buf_begin_cpu_read_access_flags = Except.error e →
        (memory_map_ro env).2 = Except.error (MapError.FdAccess e)) := by
  refine ⟨?_, ?_, ?_⟩
  · intro env e hst
    simp only [memory_map, hst]
  · intro env n e hst hrep hmm
    simp only [memory_map, hst, usize_try_from_natCast env.usizeBits n hrep, hmm]
  · intro env n a e hst hrep hmm hsync
    simp only [memory_map_ro, memory_map, hst,
      usize_try_from_natCast env.usizeBits n hrep, hmm, MappedDmaBufRo.new, hsync]

/-- Claim C7 counterexample. The claim says the size-query failure
surfaces as `SizeQueryFailed`, distinct from the `FdAccess` variant of
a begin-sync failure.  In `envFstatFail` (fstat errno 9) the error is
`MapError::FdAccess 9`, and in `envSyncFail` (sync errno 22) the error
is `MapError::FdAccess 22`: the same typed variant, so the two failure
causes are not distinct, and no `SizeQueryFailed` variant exists. -/
theorem spec_C7_counterexample :
    (memory_map envFstatFail).2 = Except.error (MapError.FdAccess 9) ∧
    (memory_map_ro envSyncFail).2 = Except.error (MapError.FdAccess 22) ∧
    MapError.variantIdx (MapError.FdAccess 9) =
      MapError.variantIdx (MapError.FdAccess 22) :=
  ⟨rfl, rfl, rfl⟩

/-- Closed instance of `spec_C7_error_variants` at the three concrete
environments. -/
theorem spec_C7_witness :
    (memory_map envFstatFail).2 = Except.error (MapError.FdAccess 9) ∧
    (memory_map envMmapFail).2 = Except.error (MapError.MappingFailed 12) ∧
    (memory_map_ro envSyncFail).2 = Except.error (MapError.FdAccess 22) :=
  ⟨spec_C7_error_variants.1 envFstatFail 9 rfl,
   spec_C7_error_variants.2.1 envMmapFail 10 12 rfl (by decide) rfl,
   spec_C7_error_variants.2.2 envSyncFail 10 65536 22 rfl (by decide) rfl rfl⟩

/-- Claim C10. If the begin sync ioctl fails during `memory_map_ro`,
`memory_map_rw` or `memory_map_wo`, the operation returns an error, and
the trace of the failed call contains the `mmap` event but no `munmap`
event: the error return of `new` discards the raw pointer, which has no
drop glue, so the freshly mapped region is leaked rather than unmapped. -/
theorem spec_C10_sync_failure_leak (m : Mode) (env : Env) (n a e : Nat)
    (hst : env.st_size = Except.ok (n : Int))
    (hrep : (n : Int) < (2 : Int) ^ env.usizeBits)
    (hmm : env.mmapResult = Except.ok a)
    (hsync : env.syncResult (beginFlags m) = Except.error e) :
    (memory_map_mode m env).2 = Except.error (MapError.FdAccess e) ∧
    Event.mmapCall (next_multiple_of n env.pageSize) ∈ (memory_map_mode m env).1 ∧
    Event.munmapCall ∉ (memory_map_mode m env).1 := by
  cases m <;>
    simp only [beginFlags] at hsync <;>
    simp [memory_map_mode, memory_map_ro, memory_map_rw, memory_map_wo, memory_map,
      hst, usize_try_from_natCast env.usizeBits n hrep, hmm,
      MappedDmaBufRo.new, MappedDmaBufRw.new, MappedDmaBufWo.new, hsync]

/-- Closed instance of `spec_C10_sync_failure_leak` at `envSyncFail` in
read-only mode. -/
theorem spec_C10_witness :
    (memory_map_mode Mode.ro envSyncFail).2 = Except.error (MapError.FdAccess 22) ∧
    Event.mmapCall (next_multiple_of 10 4096) ∈ (memory_map_mode Mode.ro envSyncFail).1 ∧
    Event.munmapCall ∉ (memory_map_mode Mode.ro envSyncFail).1 :=
  spec_C10_sync_failure_leak Mode.ro envSyncFail 10 65536 22 rfl (by decide) rfl rfl

/-- The begin and end flag words of the same mode always differ (bit2). -/
theorem beginFlags_ne_endFlags (m : Mode) : beginFlags m ≠ endFlags m := by
  cases m <;> decide

/-- Normal form of the lifetime trace. -/
theorem lifetimeTrace_eq (m : Mode) (k : Nat) (ef uf : Bool) :
    lifetimeTrace m k ef uf =
      Event.sync (beginFlags m) ::
        (List.replicate k Event.byteAccess ++
          Event.sync (endFlags m) ::
            ((if ef then [Event.warn] else []) ++
              Event.munmapCall :: (if uf then [Event.warn] else []))) := by
  simp [lifetimeTrace, newEvents, accessEvents, dropTrace]

/-- Claim C1. Over a mapping's lifetime with `k` caller accesses (any
`k`, including zero) and any outcome of the release-time kernel calls:
the begin sync notification of the mapping's mode occurs exactly once
and the matching end notification exactly once (matched pairs); the
begin notification is the very first event, so it precedes every byte
access; the end notification sits at position `k + 1`, after which no
byte access occurs, so it follows every access; and the `munmap` event
occurs strictly after the end notification (it lies beyond position
`k + 1` and nowhere before). -/
theorem spec_C1_lifecycle_bracket (m : Mode) (k : Nat) (ef uf : Bool) :
    List.count (Event.sync (beginFlags m)) (lifetimeTrace m k ef uf) = 1 ∧
    List.count (Event.sync (endFlags m)) (lifetimeTrace m k ef uf) = 1 ∧
    (lifetimeTrace m k ef uf).head? = some (Event.sync (beginFlags m)) ∧
    (lifetimeTrace m k ef uf)[k + 1]? = some (Event.sync (endFlags m)) ∧
    List.count Event.byteAccess ((lifetimeTrace m k ef uf).drop (k + 1)) = 0 ∧
    List.count Event.byteAccess (lifetimeTrace m k ef uf) = k ∧
    Event.munmapCall ∈ (lifetimeTrace m k ef uf).drop (k + 2) ∧
    Event.munmapCall ∉ (lifetimeTrace m k ef uf).take (k + 2) := by
  have hbe : beginFlags m ≠ endFlags m := beginFlags_ne_endFlags m
  rw [lifetimeTrace_eq]
  refine ⟨?_, ?_, ?_, ?_, ?_, ?_, ?_, ?_⟩
  · cases ef <;> cases uf <;>
      simp [List.count_cons, List.count_append, List.count_replicate, hbe]
  · cases ef <;> cases uf <;>
      simp [List.count_cons, List.count_append, List.count_replicate, hbe, Ne.symm hbe]
  · rfl
  · rw [List.getElem?_cons_succ,
      List.getElem?_append_right (by simp), List.length_replicate]
    simp
  · rw [List.drop_succ_cons, List.drop_left' (List.length_replicate k _)]
    cases ef <;> cases uf <;> simp [List.count_cons, List.count_append]
  · cases ef <;> cases uf <;>
      simp [List.count_cons, List.count_append, List.count_replicate]
  · rw [List.drop_succ_cons, List.drop_append_eq_append_drop, List.length_replicate,
      List.drop_eq_nil_of_le (by simp)]
    have hk : k + 1 - k = 1 := by omega
    rw [hk]
    cases ef <;> cases uf <;> simp
  · rw [List.take_succ_cons, List.take_append_eq_append_take, List.length_replicate,
      List.take_of_length_le (by simp)]
    have hk : k + 1 - k = 1 := by omega
    rw [hk]
    simp [List.mem_replicate]

/-- Closed instance of `spec_C1_lifecycle_bracket`: a read-write mapping
with two accesses and a failing end ioctl still has exactly one begin
and one end notification. -/
theorem spec_C1_witness :
    List.count (Event.sync (beginFlags Mode.rw)) (lifetimeTrace Mode.rw 2 true false) = 1 ∧
    List.count (Event.sync (endFlags Mode.rw)) (lifetimeTrace Mode.rw 2 true false) = 1 :=
  ⟨(spec_C1_lifecycle_bracket Mode.rw 2 true false).1,
   (spec_C1_lifecycle_bracket Mode.rw 2 true false).2.1⟩

/-- Claim C6. Dropping a mapping first issues the end sync notification of
the mapping's mode (it is the head of the drop trace) and then unmaps:
`munmap` occurs exactly once, strictly after the head, for every
combination of end-ioctl and `munmap` failure — so the mapping is
released regardless.  Every event of the drop trace is the end sync,
the `munmap`, or a `warn!` on the logging side channel: both `Drop`
impls return `()`, so no error is returned and no panic raised. -/
theorem spec_C6_release_infallible (m : Mode) (ef uf : Bool) :
    (dropTrace m ef uf).head? = some (Event.sync (endFlags m)) ∧
    List.count Event.munmapCall (dropTrace m ef uf) = 1 ∧
    List.count (Event.sync (endFlags m)) (dropTrace m ef uf) = 1 ∧
    Event.munmapCall ∈ (dropTrace m ef uf).tail ∧
    (∀ e ∈ dropTrace m ef uf,
        e = Event.sync (endFlags m) ∨ e = Event.munmapCall ∨ e = Event.warn) := by
  cases m <;> cases ef <;> cases uf <;> decide

/-- Closed instance of `spec_C6_release_infallible`: write-only mode
with both the end ioctl and the unmap failing. -/
theorem spec_C6_witness :
    List.count Event.munmapCall (dropTrace Mode.wo true true) = 1 ∧
    (Event.warn = Event.sync (endFlags Mode.wo) ∨ Event.warn = Event.munmapCall ∨
      Event.warn = Event.warn) :=
  ⟨(spec_C6_release_infallible Mode.wo true true).2.1,
   (spec_C6_release_infallible Mode.wo true true).2.2.2.2 Event.warn (by decide)⟩

/-- Claim C8. Each access-mode wrapper exposes exactly the operations
valid for it: the immutable view (`as_slice`) exists precisely on the
read-only and read-write wrappers, the mutable view (`as_slice_mut`)
precisely on the write-only and read-write wrappers — in particular no
read accessor on a write-only mapping — and every byte view has length
exactly the stored mapping length, which for a successfully constructed
mapping is the page-rounded length `memory_map` computed. -/
theorem spec_C8_accessor_surface :
    (∀ m : Mode, exposes m Accessor.read = (m == Mode.ro || m == Mode.rw)) ∧
    (∀ m : Mode, exposes m Accessor.write = (m == Mode.wo || m == Mode.rw)) ∧
    (∀ (mem : Nat → Nat) (mb : MappedDmaBuf),
        (mb.as_slice mem).length = mb.len ∧ (mb.as_slice_mut mem).length = mb.len) ∧
    (∀ (env : Env) (mb : MappedDmaBuf), (memory_map_ro env).2 = Except.ok mb →
        ∃ n, mb.len = next_multiple_of n env.pageSize) := by
  refine ⟨?_, ?_, ?_, ?_⟩
  · intro m
    cases m <;> rfl
  · intro m
    cases m <;> rfl
  · intro mem mb
    constructor <;> simp [MappedDmaBuf.as_slice, MappedDmaBuf.as_slice_mut]
  · intro env mb h
    rcases hst : env.st_size with e | sz
    · simp [memory_map_ro, memory_map, hst] at h
    · rcases htry : usize_try_from env.usizeBits sz with e | size
      · simp [memory_map_ro, memory_map, hst, htry] at h
      · rcases hmm : env.mmapResult with e | addr
        · simp [memory_map_ro, memory_map, hst, htry, hmm] at h
        · rcases hsy : env.syncResult dma_buf_begin_cpu_read_access_flags with e | u
          · simp [memory_map_ro, memory_map, hst, htry, hmm,
              MappedDmaBufRo.new, hsy] at h
          · refine ⟨size, ?_⟩
            simp [memory_map_ro, memory_map, hst, htry, hmm,
              MappedDmaBufRo.new, hsy] at h
            rw [← h]

/-- Closed instance of `spec_C8_accessor_surface`: the write-only
wrapper has no read accessor, a view over a 4096-byte mapping has
length 4096, and the length of the mapping `memory_map_ro` builds in
`envOk10` is a page multiple. -/
theorem spec_C8_witness :
    exposes Mode.wo Accessor.read = (Mode.wo == Mode.ro || Mode.wo == Mode.rw) ∧
    (MappedDmaBuf.as_slice (fun i => i) ⟨4096, 65536⟩).length = 4096 ∧
    ∃ n, (4096 : Nat) = next_multiple_of n 4096 :=
  ⟨spec_C8_accessor_surface.1 Mode.wo,
   (spec_C8_accessor_surface.2.2.1 (fun i => i) ⟨4096, 65536⟩).1,
   spec_C8_accessor_surface.2.2.2 envOk10 ⟨4096, 65536⟩ rfl⟩

/-- Claim C9. Under Rust's compile-time borrow rule (`canConstruct`, a
judgment over the program text — no runtime lock exists in `src/`), and
with the borrow kinds read off the signatures (`memory_map_ro(&self)`
shared, `memory_map_rw`/`memory_map_wo(&mut self)` exclusive): any
number of read-only mappings of one handle may be alive concurrently;
constructing a read-write or write-only mapping while any mapping is
alive is rejected; and constructing any mapping while an exclusive one
is alive is rejected. -/
theorem spec_C9_borrow_discipline :
    (∀ n : Nat, canConstruct (List.replicate n (mappingBorrow Mode.ro))
        (mappingBorrow Mode.ro) = true) ∧
    (∀ live : List BorrowKind, live ≠ [] →
        canConstruct live (mappingBorrow Mode.rw) = false ∧
        canConstruct live (mappingBorrow Mode.wo) = false) ∧
    (∀ (live : List BorrowKind) (b : BorrowKind),
        BorrowKind.exclusive ∈ live → canConstruct live b = false) := by
  refine ⟨?_, ?_, ?_⟩
  · intro n
    simp [canConstruct, mappingBorrow, List.all_eq_true, List.mem_replicate]
  · intro live hne
    rcases live with _ | ⟨b, rest⟩
    · exact absurd rfl hne
    · exact ⟨by simp [canConstruct, mappingBorrow], by simp [canConstruct, mappingBorrow]⟩
  · intro live b hmem
    cases b
    · cases hall : live.all (· == BorrowKind.shared)
      · simpa [canConstruct] using hall
      · have hx := List.all_eq_true.mp hall BorrowKind.exclusive hmem
        simp at hx
    · rcases live with _ | ⟨b', rest⟩
      · simp at hmem
      · rfl

/-- Closed instance of `spec_C9_borrow_discipline`: three concurrent
read-only mappings are admitted; a read-write mapping is rejected while
a shared borrow is live; a read-only mapping is rejected while an
exclusive borrow is live. -/
theorem spec_C9_witness :
    canConstruct (List.replicate 3 (mappingBorrow Mode.ro)) (mappingBorrow Mode.ro) = true ∧
    canConstruct [BorrowKind.shared] (mappingBorrow Mode.rw) = false ∧
    canConstruct [BorrowKind.exclusive] (mappingBorrow Mode.ro) = false :=
  ⟨spec_C9_borrow_discipline.1 3,
   (spec_C9_borrow_discipline.2.1 [BorrowKind.shared] (by decide)).1,
   spec_C9_borrow_discipline.2.2 [BorrowKind.exclusive] (mappingBorrow Mode.ro) (by decide)⟩

/-- Claim C3 (spec-modelled, see `with_access`).  For every scoped access
whose caller-supplied logic fails: the end notification attempt is in
the access's event trace regardless of its outcome; the error returned
to the caller is the caller-logic error wrapped as `ClosureError`
(distinct by constructor from `FdAccessError`) even when the end
notification also fails; and when both fail, the notification failure
appears only as the side-channel warn event. -/
theorem spec_C3_closure_error_precedence {ε ρ : Type} (ce : ε)
    (endResult : Except Nat Unit) :
    AccEvent.endSyncAttempt ∈
      (with_access (ρ := ρ) (Except.ok ()) (Except.error ce) endResult).1 ∧
    (with_access (ρ := ρ) (Except.ok ()) (Except.error ce) endResult).2 =
      Except.error (AccessError.ClosureError ce) ∧
    (∀ en, endResult = Except.error en →
        AccEvent.warnLogged ∈
          (with_access (ρ := ρ) (Except.ok ()) (Except.error ce) endResult).1) := by
  rcases endResult with en | u
  · exact ⟨by simp [with_access], by simp [with_access], fun en' _ => by simp [with_access]⟩
  · refine ⟨by simp [with_access], by simp [with_access], fun en' h => ?_⟩
    exact absurd h (by simp)

/-- Closed instance of `spec_C3_closure_error_precedence`: caller logic
fails with application error 7 and the end ioctl fails with errno 13;
the end attempt and the warn are in the trace and the returned error is
`ClosureError 7`. -/
theorem spec_C3_witness :
    AccEvent.endSyncAttempt ∈
      (with_access (ρ := Nat) (Except.ok ()) (Except.error 7) (Except.error 13)).1 ∧
    (with_access (ρ := Nat) (Except.ok ()) (Except.error 7) (Except.error 13)).2 =
      Except.error (AccessError.ClosureError 7) ∧
    AccEvent.warnLogged ∈
      (with_access (ρ := Nat) (Except.ok ()) (Except.error 7) (Except.error 13)).1 :=
  ⟨(spec_C3_closure_error_precedence 7 (Except.error 13)).1,
   (spec_C3_closure_error_precedence 7 (Except.error 13)).2.1,
   (spec_C3_closure_error_precedence 7 (Except.error 13)).2.2 13 rfl⟩
